import Mathlib

/-!
Shallow embedding of the offline-first synchronization engine of the `setu`
mobile client:

* `src/mobile-app/src/services/storageService.js` — the persistent local
  store (offline photos, cached complaint snapshots, last-sync cursor);
* `src/mobile-app/src/services/syncService.js` — the upload orchestrator
  (`SyncService.syncPhotos`) and the read-through remote cache
  (`ComplaintService`).

Timestamps are modelled as `Int` milliseconds.  Each storage accessor takes a
`fault : Bool` flag standing for "the underlying AsyncStorage call threw":
accessors whose JS bodies catch and swallow the error degrade to an empty
result or a no-op, while `saveOfflinePhoto` and `markPhotoAsSynced` catch and
re-throw, modelled with `Except`.  Remote HTTP calls are modelled by an
oracle argument (`Option` payload: `some` = 2xx response, `none` = request
threw), and the per-item upload outcome of a sync pass by oracles
`upload markFault : Nat → Bool` indexed by loop position.
-/

namespace Setu

/-- Milliseconds in one day (JS time arithmetic is in ms). -/
def dayMs : Int := 86400000

/-- A locally captured photo record, as stored under the `offline_photos` key
(`saveOfflinePhoto` creates `{id, complaintId, …, timestamp, synced:false}`;
`markPhotoAsSynced` later adds `syncedAt`). -/
structure Photo where
  id : Nat
  complaintId : Nat
  timestamp : Int
  synced : Bool
  syncedAt : Option Int
deriving Repr, DecidableEq

/-- A cached remote complaint snapshot, as stored under `synced_complaints`;
`payload` stands for the remaining denormalized fields. -/
structure Complaint where
  complaint_id : Nat
  payload : Nat
deriving Repr, DecidableEq

/-- The persistent local store: the three AsyncStorage collections
`offline_photos`, `synced_complaints`, `last_sync`. -/
structure Store where
  offlinePhotos : List Photo
  syncedComplaints : List Complaint
  lastSync : Option Int
deriving Repr, DecidableEq

/-! ## storageService.js -/

/-- JS `getOfflinePhotos`: reads `offline_photos`; on a storage fault the catch
block returns `[]`. -/
def getOfflinePhotos (fault : Bool) (s : Store) : List Photo :=
  if fault then [] else s.offlinePhotos

/-- JS `getUnsyncedPhotos`: filters the offline photos to those with
`!photo.synced`. -/
def getUnsyncedPhotos (fault : Bool) (s : Store) : List Photo :=
  (getOfflinePhotos fault s).filter (fun p => !p.synced)

/-- JS `getOfflinePhotosByComplaint`: offline photos of one complaint. -/
def getOfflinePhotosByComplaint (fault : Bool) (complaintId : Nat) (s : Store) :
    List Photo :=
  (getOfflinePhotos fault s).filter (fun p => p.complaintId = complaintId)

/-- JS `saveOfflinePhoto`: appends a fresh record with `synced:false`; its catch
block re-throws the storage error, so a fault surfaces as `Except.error`. -/
def saveOfflinePhoto (fault : Bool) (now : Int) (newId complaintId : Nat)
    (s : Store) : Except Unit (Photo × Store) :=
  if fault then .error () else
    let p : Photo :=
      { id := newId, complaintId := complaintId, timestamp := now,
        synced := false, syncedAt := none }
    .ok (p, { s with offlinePhotos := s.offlinePhotos ++ [p] })

/-- The pure write of `markPhotoAsSynced`: every stored photo whose `id`
matches gets `synced:true, syncedAt:now`. -/
def markSyncedPure (now : Int) (photoId : Nat) (s : Store) : Store :=
  { s with offlinePhotos := s.offlinePhotos.map (fun p =>
      if p.id = photoId then { p with synced := true, syncedAt := some now }
      else p) }

/-- JS `markPhotoAsSynced`: like `saveOfflinePhoto`, its catch block re-throws,
so a storage fault surfaces as `Except.error`. -/
def markPhotoAsSynced (fault : Bool) (now : Int) (photoId : Nat) (s : Store) :
    Except Unit Store :=
  if fault then .error () else .ok (markSyncedPure now photoId s)

/-- The retention predicate of `cleanupSyncedPhotos`: a photo is kept when it
is not yet synced, or when `new Date(photo.syncedAt) > sevenDaysAgo`.  A
synced photo with no `syncedAt` yields an invalid date, every comparison on
which is false, so it is dropped. -/
def keepPhoto (now : Int) (p : Photo) : Bool :=
  if !p.synced then true
  else match p.syncedAt with
    | some t => decide (t > now - 7 * dayMs)
    | none => false

/-- JS `cleanupSyncedPhotos`: deletes synced photos older than seven days; its
catch block swallows the fault, degrading to a no-op. -/
def cleanupSyncedPhotos (fault : Bool) (now : Int) (s : Store) : Store :=
  if fault then s else
    { s with offlinePhotos := s.offlinePhotos.filter (keepPhoto now) }

/-- JS `saveSyncedComplaint`: upsert by `complaint_id` into the cached snapshot
list; a fault is swallowed (no-op). -/
def saveSyncedComplaint (fault : Bool) (c : Complaint) (s : Store) : Store :=
  if fault then s else
    match s.syncedComplaints.findIdx? (fun x => x.complaint_id = c.complaint_id) with
    | some i => { s with syncedComplaints := s.syncedComplaints.set i c }
    | none => { s with syncedComplaints := s.syncedComplaints ++ [c] }

/-- JS `getSyncedComplaints`: reads the snapshot list; a fault degrades to `[]`. -/
def getSyncedComplaints (fault : Bool) (s : Store) : List Complaint :=
  if fault then [] else s.syncedComplaints

/-- JS `StorageService.getComplaintById`: looks a snapshot up by key; absent or
faulted reads yield `none`. -/
def getComplaintByIdLocal (fault : Bool) (complaintId : Nat) (s : Store) :
    Option Complaint :=
  (getSyncedComplaints fault s).find? (fun c => c.complaint_id = complaintId)

/-- JS `updateLastSync`: writes the sync cursor; a fault is swallowed (no-op). -/
def updateLastSync (fault : Bool) (now : Int) (s : Store) : Store :=
  if fault then s else { s with lastSync := some now }

/-- JS `getLastSync`: reads the cursor; a fault degrades to `none`. -/
def getLastSync (fault : Bool) (s : Store) : Option Int :=
  if fault then none else s.lastSync

/-! ## Connectivity probe (syncService.js, `isConnectedToWiFi`) -/

/-- Network type as reported by `expo-network`. -/
inductive NetType
  | wifi
  | cellular
  | offline
  | other
deriving Repr, DecidableEq

/-- The collaborator's connectivity report
`{connected, type, internetReachable}`. -/
structure NetworkState where
  isConnected : Bool
  type : NetType
  isInternetReachable : Bool
deriving Repr, DecidableEq

/-- JS `isConnectedToWiFi`: `isConnected && type === WIFI`; if the probe throws,
the catch block returns `false`. -/
def isConnectedToWiFi (probeFault : Bool) (ns : NetworkState) : Bool :=
  if probeFault then false else ns.isConnected && decide (ns.type = .wifi)

/-! ## Upload orchestrator (syncService.js, `syncPhotos`) -/

/-- The progress object handed to the `onProgress` callback:
`{current: i+1, total, photo}` (we record the photo by its id). -/
structure ProgressEvent where
  current : Nat
  total : Nat
  photoId : Nat
deriving Repr, DecidableEq

/-- The result object of `syncPhotos`.  The JS object carries different
fields on different paths, modelled with `Option`: `count` only on the
empty-queue early return, `successCount`/`failCount` only on a completed
pass. -/
structure SyncResult where
  success : Bool
  message : String
  count : Option Nat
  successCount : Option Nat
  failCount : Option Nat
deriving Repr, DecidableEq

/-- The orchestrator's own state: the `isSyncing` re-entrancy flag plus the
local store it mutates. -/
structure SyncState where
  isSyncing : Bool
  store : Store
deriving Repr, DecidableEq

/-- Output of the per-item loop of `syncPhotos`. -/
structure LoopOut where
  successCount : Nat
  failCount : Nat
  store : Store
  events : List ProgressEvent
deriving Repr

/-- Whether loop iteration `j` succeeds: the upload must return 2xx
(`upload j`) and the subsequent `markPhotoAsSynced` must not throw
(`!markFault j`); both failure modes land in the same per-item catch. -/
def okAt (upload markFault : Nat → Bool) (j : Nat) : Bool :=
  upload j && !markFault j

/-- The `for` loop of `syncPhotos` over the pending snapshot: emit the
progress event, then `uploadPhoto`; on success `markPhotoAsSynced` and
increment `successCount`; any throw is caught and increments `failCount`,
leaving the store untouched for that item. -/
def syncLoop (upload markFault : Nat → Bool) (now : Int) (total : Nat) :
    List Photo → Nat → Store → LoopOut
  | [], _, s => { successCount := 0, failCount := 0, store := s, events := [] }
  | p :: rest, i, s =>
    let ev : ProgressEvent := { current := i + 1, total := total, photoId := p.id }
    if upload i then
      match markPhotoAsSynced (markFault i) now p.id s with
      | .ok s' =>
        let r := syncLoop upload markFault now total rest (i + 1) s'
        { r with successCount := r.successCount + 1, events := ev :: r.events }
      | .error _ =>
        let r := syncLoop upload markFault now total rest (i + 1) s
        { r with failCount := r.failCount + 1, events := ev :: r.events }
    else
      let r := syncLoop upload markFault now total rest (i + 1) s
      { r with failCount := r.failCount + 1, events := ev :: r.events }

/-- The success message of a completed pass:
``Synced ${successCount} photos${failCount > 0 ? `, ${failCount} failed` : ''}``. -/
def syncMessage (successCount failCount : Nat) : String :=
  "Synced " ++ toString successCount ++ " photos" ++
    (if failCount > 0 then ", " ++ toString failCount ++ " failed" else "")

/-- JS `SyncService.syncPhotos`.  Paths, in source order: the `isSyncing` entry
guard (returns with the state untouched — the flag belongs to the pass that
set it); the WiFi precondition (`try` entered, so `finally` clears the
flag); the empty-queue early return; the per-item loop followed by
`updateLastSync` and `cleanupSyncedPhotos`.  Returns the result object, the
final service state, and the list of progress events in emission order. -/
def syncPhotos (ns : NetworkState) (probeFault : Bool)
    (upload markFault : Nat → Bool) (now : Int) (st : SyncState) :
    SyncResult × SyncState × List ProgressEvent :=
  if st.isSyncing then
    ({ success := false, message := "Sync already in progress",
       count := none, successCount := none, failCount := none }, st, [])
  else if !isConnectedToWiFi probeFault ns then
    ({ success := false, message := "WiFi connection required for syncing",
       count := none, successCount := none, failCount := none },
     { isSyncing := false, store := st.store }, [])
  else
    let pending := getUnsyncedPhotos false st.store
    if pending.length = 0 then
      ({ success := true, message := "No photos to sync",
         count := some 0, successCount := none, failCount := none },
       { isSyncing := false, store := st.store }, [])
    else
      let r := syncLoop upload markFault now pending.length pending 0 st.store
      let s2 := updateLastSync false now r.store
      let s3 := cleanupSyncedPhotos false now s2
      ({ success := true, message := syncMessage r.successCount r.failCount,
         count := none, successCount := some r.successCount,
         failCount := some r.failCount },
       { isSyncing := false, store := s3 }, r.events)

/-- The arguments of one orchestrator invocation, for reasoning about
sequences of passes. -/
structure PassArgs where
  ns : NetworkState
  probeFault : Bool
  upload : Nat → Bool
  markFault : Nat → Bool
  now : Int

/-- Run a sequence of orchestrator passes, threading the service state. -/
def runPasses (l : List PassArgs) (st : SyncState) : SyncState :=
  l.foldl
    (fun st a => (syncPhotos a.ns a.probeFault a.upload a.markFault a.now st).2.1)
    st

/-! ## Read-through remote cache (ComplaintService) -/

/-- Result of `ComplaintService.getComplaintById`: `offline` is the stale
flag (absent on the online path, modelled `false`). -/
structure FetchResult where
  success : Bool
  data : Option Complaint
  error : Option String
  offline : Bool
deriving Repr, DecidableEq

/-- Result of `searchComplaints` / `getAllComplaints` (list-shaped data). -/
structure ListResult where
  success : Bool
  results : Option (List Complaint)
  error : Option String
  offline : Bool
deriving Repr, DecidableEq

/-- JS `ComplaintService.getComplaintById`: remote success (`remote = some c`)
upserts the snapshot and returns it fresh; remote failure falls back to the
stored snapshot flagged `offline`, or a not-found failure. -/
def getComplaintById (remote : Option Complaint) (complaintId : Nat)
    (s : Store) : FetchResult × Store :=
  match remote with
  | some c =>
    ({ success := true, data := some c, error := none, offline := false },
     saveSyncedComplaint false c s)
  | none =>
    match getComplaintByIdLocal false complaintId s with
    | some c =>
      ({ success := true, data := some c, error := none, offline := true }, s)
    | none =>
      ({ success := false, data := none, error := some "Complaint not found",
         offline := true }, s)

/-- JS `ComplaintService.searchComplaints`: returns the remote data on success
and a bare failure on error — no snapshot write, no offline fallback.  The
query `q` only parametrizes the remote request. -/
def searchComplaints (remote : Option (List Complaint)) (_q : Nat) (s : Store) :
    ListResult × Store :=
  match remote with
  | some l =>
    ({ success := true, results := some l, error := none, offline := false }, s)
  | none =>
    ({ success := false, results := none, error := some "Search failed",
       offline := false }, s)

/-- JS `ComplaintService.getAllComplaints`: remote success upserts every element
of `results`; remote failure falls back to the cached snapshot list when it
is non-empty, else fails. -/
def getAllComplaints (remote : Option (List Complaint)) (s : Store) :
    ListResult × Store :=
  match remote with
  | some l =>
    ({ success := true, results := some l, error := none, offline := false },
     l.foldl (fun acc c => saveSyncedComplaint false c acc) s)
  | none =>
    let offlineData := getSyncedComplaints false s
    if offlineData.length > 0 then
      ({ success := true, results := some offlineData, error := none,
         offline := true }, s)
    else
      ({ success := false, results := none,
         error := some "Failed to fetch complaints", offline := false }, s)

/-! ## Auxiliary notions for reasoning about a pass -/

/-- The ids `markPhotoAsSynced` is successfully applied to during the loop
over `l`, the first element sitting at loop position `i`. -/
def markedIds (upload markFault : Nat → Bool) : Nat → List Photo → List Nat
  | _, [] => []
  | i, p :: rest =>
    (if okAt upload markFault i then [p.id] else []) ++
      markedIds upload markFault (i + 1) rest

/-- The cumulative effect on one stored photo of the `markSyncedPure` writes
for a set of ids. -/
def applyMarks (now : Int) (marked : List Nat) (p : Photo) : Photo :=
  if p.id ∈ marked then { p with synced := true, syncedAt := some now } else p

/-- The progress events emitted by the loop over `l` starting at position
`i`, with snapshot size `total`. -/
def eventsOf (total : Nat) : Nat → List Photo → List ProgressEvent
  | _, [] => []
  | i, p :: rest =>
    { current := i + 1, total := total, photoId := p.id } :: eventsOf total (i + 1) rest

/-! ## Lemmas about the per-item loop -/

lemma syncLoop_cons_ok (u m : Nat → Bool) (now : Int) (total : Nat)
    (p : Photo) (rest : List Photo) (i : Nat) (s : Store)
    (hok : okAt u m i = true) :
    syncLoop u m now total (p :: rest) i s =
      (let r := syncLoop u m now total rest (i + 1) (markSyncedPure now p.id s)
       { r with successCount := r.successCount + 1,
                events := { current := i + 1, total := total, photoId := p.id } :: r.events }) := by
  simp only [okAt, Bool.and_eq_true, Bool.not_eq_true'] at hok
  simp [syncLoop, hok.1, hok.2, markPhotoAsSynced]

lemma syncLoop_cons_notok (u m : Nat → Bool) (now : Int) (total : Nat)
    (p : Photo) (rest : List Photo) (i : Nat) (s : Store)
    (hok : okAt u m i = false) :
    syncLoop u m now total (p :: rest) i s =
      (let r := syncLoop u m now total rest (i + 1) s
       { r with failCount := r.failCount + 1,
                events := { current := i + 1, total := total, photoId := p.id } :: r.events }) := by
  by_cases hu : u i
  · have hm : m i = true := by
      simp only [okAt, hu, Bool.true_and, Bool.not_eq_false'] at hok
      exact hok
    simp [syncLoop, hu, hm, markPhotoAsSynced]
  · simp [syncLoop, hu]

lemma applyMarks_id (now : Int) (M : List Nat) (p : Photo) :
    (applyMarks now M p).id = p.id := by
  unfold applyMarks; split <;> rfl

lemma applyMarks_markOne (now : Int) (pid : Nat) (M : List Nat) (q : Photo) :
    applyMarks now M
      (if q.id = pid then { q with synced := true, syncedAt := some now } else q) =
      applyMarks now (pid :: M) q := by
  by_cases h : q.id = pid
  · subst h
    rw [if_pos rfl]
    unfold applyMarks
    rw [if_pos (List.mem_cons_self q.id M)]
    by_cases hm : q.id ∈ M <;> simp [hm]
  · rw [if_neg h]
    unfold applyMarks
    simp only [List.mem_cons, h, false_or]

lemma syncLoop_store (u m : Nat → Bool) (now : Int) (total : Nat)
    (l : List Photo) : ∀ (i : Nat) (s : Store),
    (syncLoop u m now total l i s).store =
      { s with offlinePhotos :=
          s.offlinePhotos.map (applyMarks now (markedIds u m i l)) } := by
  induction l with
  | nil =>
    intro i s
    have hfun : (applyMarks now (markedIds u m i [])) = fun p => p := by
      funext p
      simp [applyMarks, markedIds]
    show s = { s with offlinePhotos := s.offlinePhotos.map (applyMarks now (markedIds u m i [])) }
    rw [hfun, List.map_id']
  | cons p rest ih =>
    intro i s
    by_cases hok : okAt u m i = true
    · rw [syncLoop_cons_ok u m now total p rest i s hok]
      dsimp only
      rw [ih (i + 1) (markSyncedPure now p.id s)]
      have hm : markedIds u m i (p :: rest) = p.id :: markedIds u m (i + 1) rest := by
        simp [markedIds, hok]
      rw [hm]
      dsimp only [markSyncedPure]
      rw [List.map_map]
      congr 1
      apply List.map_congr_left
      intro a _
      simp only [Function.comp_apply]
      exact applyMarks_markOne now p.id (markedIds u m (i + 1) rest) a
    · have hok' : okAt u m i = false := by
        revert hok
        cases okAt u m i <;> simp
      rw [syncLoop_cons_notok u m now total p rest i s hok']
      dsimp only
      rw [ih (i + 1) s]
      have hm : markedIds u m i (p :: rest) = markedIds u m (i + 1) rest := by
        simp [markedIds, hok']
      rw [hm]

lemma countP_add_countP_not {α : Type} (p : α → Bool) (l : List α) :
    l.countP p + l.countP (fun a => !p a) = l.length := by
  induction l with
  | nil => simp
  | cons a l ih =>
    by_cases h : p a <;> simp [List.countP_cons, h] <;> omega

lemma syncLoop_counts (u m : Nat → Bool) (now : Int) (total : Nat)
    (l : List Photo) : ∀ (i : Nat) (s : Store),
    (syncLoop u m now total l i s).successCount =
      (List.range' i l.length).countP (okAt u m) ∧
    (syncLoop u m now total l i s).failCount =
      (List.range' i l.length).countP (fun j => !okAt u m j) := by
  induction l with
  | nil => intro i s; simp [syncLoop]
  | cons p rest ih =>
    intro i s
    rw [List.length_cons, List.range'_succ]
    by_cases hok : okAt u m i = true
    · rw [syncLoop_cons_ok u m now total p rest i s hok]
      dsimp only
      constructor
      · rw [(ih (i + 1) (markSyncedPure now p.id s)).1]
        simp [List.countP_cons, hok, Nat.add_comm]
      · rw [(ih (i + 1) (markSyncedPure now p.id s)).2]
        simp [List.countP_cons, hok]
    · have hok' : okAt u m i = false := by
        revert hok
        cases okAt u m i <;> simp
      rw [syncLoop_cons_notok u m now total p rest i s hok']
      dsimp only
      constructor
      · rw [(ih (i + 1) s).1]
        simp [List.countP_cons, hok']
      · rw [(ih (i + 1) s).2]
        simp [List.countP_cons, hok', Nat.add_comm]

lemma syncLoop_events (u m : Nat → Bool) (now : Int) (total : Nat)
    (l : List Photo) : ∀ (i : Nat) (s : Store),
    (syncLoop u m now total l i s).events = eventsOf total i l := by
  induction l with
  | nil => intro i s; simp [syncLoop, eventsOf]
  | cons p rest ih =>
    intro i s
    by_cases hok : okAt u m i = true
    · rw [syncLoop_cons_ok u m now total p rest i s hok]
      dsimp only
      rw [ih (i + 1) (markSyncedPure now p.id s)]
      rfl
    · have hok' : okAt u m i = false := by
        revert hok
        cases okAt u m i <;> simp
      rw [syncLoop_cons_notok u m now total p rest i s hok']
      dsimp only
      rw [ih (i + 1) s]
      rfl

lemma eventsOf_length (total : Nat) (l : List Photo) : ∀ i,
    (eventsOf total i l).length = l.length := by
  induction l with
  | nil => intro i; rfl
  | cons p rest ih => intro i; simp [eventsOf, ih (i + 1)]

lemma eventsOf_get (total : Nat) (l : List Photo) : ∀ i j (h : j < l.length)
    (h' : j < (eventsOf total i l).length),
    (eventsOf total i l).get ⟨j, h'⟩ =
      { current := i + j + 1, total := total, photoId := (l.get ⟨j, h⟩).id } := by
  induction l with
  | nil => intro i j h _; exact absurd h (Nat.not_lt_zero j)
  | cons p rest ih =>
    intro i j h h'
    match j with
    | 0 => rfl
    | j + 1 =>
      show (eventsOf total (i + 1) rest).get ⟨j, _⟩ = _
      rw [ih (i + 1) j (Nat.lt_of_succ_lt_succ h) _]
      congr 1
      omega

lemma markedIds_subset (u m : Nat → Bool) (l : List Photo) : ∀ i x,
    x ∈ markedIds u m i l → x ∈ l.map Photo.id := by
  induction l with
  | nil => intro i x hx; simp [markedIds] at hx
  | cons p rest ih =>
    intro i x hx
    simp only [markedIds] at hx
    rcases List.mem_append.mp hx with h | h
    · rw [List.map_cons]
      split at h
      · rw [List.mem_singleton] at h
        subst h
        exact List.mem_cons_self _ _
      · simp at h
    · exact List.mem_cons_of_mem _ (ih (i + 1) x h)

lemma applyMarks_marked (now : Int) (M : List Nat) (p : Photo)
    (hs : p.synced = true) (ha : p.syncedAt = some now) :
    (applyMarks now M p).synced = true ∧ (applyMarks now M p).syncedAt = some now := by
  unfold applyMarks
  split <;> simp [hs, ha]

lemma syncLoop_item (u m : Nat → Bool) (now : Int) (total : Nat)
    (l : List Photo) : ∀ (i : Nat) (s : Store),
    (l.map Photo.id).Nodup →
    (∀ p ∈ l, p ∈ s.offlinePhotos) →
    ∀ j (h : j < l.length),
      (okAt u m (i + j) = true →
        ∃ q ∈ (syncLoop u m now total l i s).store.offlinePhotos,
          q.id = (l.get ⟨j, h⟩).id ∧ q.synced = true ∧ q.syncedAt = some now) ∧
      (okAt u m (i + j) = false →
        l.get ⟨j, h⟩ ∈ (syncLoop u m now total l i s).store.offlinePhotos) := by
  induction l with
  | nil => intro i s _ _ j h; exact absurd h (Nat.not_lt_zero j)
  | cons p rest ih =>
    intro i s hnd hmem j h
    have hndrest : (rest.map Photo.id).Nodup := (List.nodup_cons.mp hnd).2
    have hpid : p.id ∉ rest.map Photo.id := (List.nodup_cons.mp hnd).1
    match j with
    | 0 =>
      constructor
      · intro hok
        rw [Nat.add_zero] at hok
        rw [syncLoop_cons_ok u m now total p rest i s hok]
        dsimp only
        rw [syncLoop_store u m now total rest (i + 1) (markSyncedPure now p.id s)]
        dsimp only [markSyncedPure]
        refine ⟨applyMarks now (markedIds u m (i + 1) rest)
          { p with synced := true, syncedAt := some now }, ?_, ?_, ?_⟩
        · apply List.mem_map_of_mem
          have hp : p ∈ s.offlinePhotos := hmem p (List.mem_cons_self p rest)
          have := List.mem_map_of_mem
            (fun q => if q.id = p.id then { q with synced := true, syncedAt := some now } else q) hp
          simpa using this
        · rw [applyMarks_id]
          rfl
        · exact applyMarks_marked now _ _ rfl rfl
      · intro hok
        rw [Nat.add_zero] at hok
        rw [syncLoop_cons_notok u m now total p rest i s hok]
        dsimp only
        rw [syncLoop_store u m now total rest (i + 1) s]
        dsimp only
        have hp : p ∈ s.offlinePhotos := hmem p (List.mem_cons_self p rest)
        have hnotin : p.id ∉ markedIds u m (i + 1) rest := by
          intro hin
          exact hpid (markedIds_subset u m rest (i + 1) p.id hin)
        have : applyMarks now (markedIds u m (i + 1) rest) p = p := by
          unfold applyMarks
          rw [if_neg hnotin]
        show p ∈ _
        rw [← this]
        exact List.mem_map_of_mem _ hp
    | j + 1 =>
      have hrest : j < rest.length := Nat.lt_of_succ_lt_succ h
      have harith : i + (j + 1) = (i + 1) + j := by omega
      have hget : (p :: rest).get ⟨j + 1, h⟩ = rest.get ⟨j, hrest⟩ := rfl
      by_cases hok : okAt u m i = true
      · rw [syncLoop_cons_ok u m now total p rest i s hok]
        dsimp only
        have hmem' : ∀ q ∈ rest, q ∈ (markSyncedPure now p.id s).offlinePhotos := by
          intro q hq
          have hq' : q ∈ s.offlinePhotos := hmem q (List.mem_cons_of_mem p hq)
          have hne : q.id ≠ p.id := by
            intro he
            exact hpid (he ▸ List.mem_map_of_mem Photo.id hq)
          dsimp only [markSyncedPure]
          have : (if q.id = p.id then { q with synced := true, syncedAt := some now } else q) = q :=
            if_neg hne
          rw [← this]
          exact List.mem_map_of_mem _ hq'
        have := ih (i + 1) (markSyncedPure now p.id s) hndrest hmem' j hrest
        rw [harith, hget]
        exact this
      · have hok' : okAt u m i = false := by
          revert hok
          cases okAt u m i <;> simp
        rw [syncLoop_cons_notok u m now total p rest i s hok']
        dsimp only
        have hmem' : ∀ q ∈ rest, q ∈ s.offlinePhotos := fun q hq =>
          hmem q (List.mem_cons_of_mem p hq)
        have := ih (i + 1) s hndrest hmem' j hrest
        rw [harith, hget]
        exact this

/-! ## Lemmas about a whole pass -/

lemma syncPhotos_run (ns : NetworkState) (probeFault : Bool)
    (upload markFault : Nat → Bool) (now : Int) (st : SyncState)
    (hidle : st.isSyncing = false)
    (hwifi : isConnectedToWiFi probeFault ns = true)
    (hne : getUnsyncedPhotos false st.store ≠ []) :
    syncPhotos ns probeFault upload markFault now st =
      (let pending := getUnsyncedPhotos false st.store
       let r := syncLoop upload markFault now pending.length pending 0 st.store
       ({ success := true, message := syncMessage r.successCount r.failCount,
          count := none, successCount := some r.successCount,
          failCount := some r.failCount },
        { isSyncing := false,
          store := cleanupSyncedPhotos false now (updateLastSync false now r.store) },
        r.events)) := by
  unfold syncPhotos
  split
  · next hbusy => rw [hidle] at hbusy; exact Bool.noConfusion hbusy
  · split
    · next hw => rw [hwifi] at hw; simp at hw
    · dsimp only
      split
      · next h0 => exact absurd (List.length_eq_zero.mp h0) hne
      · rfl

lemma keepPhoto_unsynced (now : Int) (p : Photo) (h : p.synced = false) :
    keepPhoto now p = true := by
  simp [keepPhoto, h]

lemma keepPhoto_fresh (now : Int) (p : Photo) (hs : p.synced = true)
    (ha : p.syncedAt = some now) : keepPhoto now p = true := by
  simp only [keepPhoto, hs, Bool.not_true, Bool.false_eq_true, if_false, ha]
  rw [decide_eq_true_eq]
  have : (0 : Int) < 7 * dayMs := by decide
  omega

lemma syncPhotos_clears_flag (ns : NetworkState) (probeFault : Bool)
    (upload markFault : Nat → Bool) (now : Int) (st : SyncState)
    (hidle : st.isSyncing = false) :
    (syncPhotos ns probeFault upload markFault now st).2.1.isSyncing = false := by
  unfold syncPhotos
  split
  · exact hidle
  · split
    · rfl
    · dsimp only
      split
      · rfl
      · rfl

lemma syncPhotos_empty (ns : NetworkState) (probeFault : Bool)
    (upload markFault : Nat → Bool) (now : Int) (st : SyncState)
    (hidle : st.isSyncing = false)
    (hwifi : isConnectedToWiFi probeFault ns = true)
    (hemp : getUnsyncedPhotos false st.store = []) :
    syncPhotos ns probeFault upload markFault now st =
      ({ success := true, message := "No photos to sync", count := some 0,
         successCount := none, failCount := none },
       { isSyncing := false, store := st.store }, []) := by
  unfold syncPhotos
  split
  · next hbusy => rw [hidle] at hbusy; exact Bool.noConfusion hbusy
  · split
    · next hw => rw [hwifi] at hw; simp at hw
    · dsimp only
      split
      · rfl
      · next h0 => exact absurd (congrArg List.length hemp) h0

lemma runPasses_clears_flag (calls : List PassArgs) :
    ∀ st : SyncState, st.isSyncing = false → (runPasses calls st).isSyncing = false := by
  induction calls with
  | nil => intro st h; exact h
  | cons a l ih =>
    intro st h
    exact ih _ (syncPhotos_clears_flag a.ns a.probeFault a.upload a.markFault a.now st h)

/-! ## Lemmas about the snapshot upsert -/

/-- Recursive characterization of the `findIndex`-then-assign-or-push upsert
of `saveSyncedComplaint`. -/
def upsertList (c : Complaint) : List Complaint → List Complaint
  | [] => [c]
  | x :: xs =>
    if x.complaint_id = c.complaint_id then c :: xs else x :: upsertList c xs

lemma upsert_eq (c : Complaint) : ∀ l : List Complaint,
    (match l.findIdx? (fun x => x.complaint_id = c.complaint_id) with
     | some i => l.set i c
     | none => l ++ [c]) = upsertList c l := by
  intro l
  induction l with
  | nil => rfl
  | cons x xs ih =>
    rw [List.findIdx?_cons]
    by_cases hp : x.complaint_id = c.complaint_id
    · have hd : (decide (x.complaint_id = c.complaint_id)) = true := by
        simp [hp]
      rw [hd]
      simp only [if_pos rfl]
      simp [upsertList, hp]
    · have hd : (decide (x.complaint_id = c.complaint_id)) = false := by
        simp [hp]
      rw [hd]
      simp only [Bool.false_eq_true, if_false, List.findIdx?_succ]
      cases h0 : xs.findIdx? (fun x => x.complaint_id = c.complaint_id) with
      | none =>
        rw [h0] at ih
        simp only [Option.map_none']
        simp only [upsertList, if_neg hp, List.cons_append]
        rw [← ih]
      | some j =>
        rw [h0] at ih
        simp only [Option.map_some']
        show x :: xs.set j c = upsertList c (x :: xs)
        simp only [upsertList, if_neg hp]
        rw [← ih]

lemma saveSyncedComplaint_eq (c : Complaint) (s : Store) :
    saveSyncedComplaint false c s =
      { s with syncedComplaints := upsertList c s.syncedComplaints } := by
  unfold saveSyncedComplaint
  rw [← upsert_eq c s.syncedComplaints]
  cases s.syncedComplaints.findIdx? (fun x => x.complaint_id = c.complaint_id) <;> rfl

lemma upsertList_mem (c : Complaint) : ∀ l, c ∈ upsertList c l := by
  intro l
  induction l with
  | nil => exact List.mem_singleton_self c
  | cons x xs ih =>
    unfold upsertList
    split
    · exact List.mem_cons_self c xs
    · exact List.mem_cons_of_mem x ih

lemma upsertList_key_mem (c : Complaint) (k : Nat) : ∀ l : List Complaint,
    k ∈ l.map Complaint.complaint_id →
    k ∈ (upsertList c l).map Complaint.complaint_id := by
  intro l
  induction l with
  | nil => intro h; simp at h
  | cons x xs ih =>
    intro h
    rw [List.map_cons, List.mem_cons] at h
    unfold upsertList
    split
    · next hp =>
      rcases h with h | h
      · rw [List.map_cons, List.mem_cons]
        left
        rw [h, hp]
      · exact List.mem_cons_of_mem _ h
    · rcases h with h | h
      · rw [List.map_cons, List.mem_cons]
        left
        exact h
      · exact List.mem_cons_of_mem _ (ih h)

lemma upsertList_new_key (c : Complaint) : ∀ l : List Complaint,
    c.complaint_id ∈ (upsertList c l).map Complaint.complaint_id := by
  intro l
  exact List.mem_map_of_mem Complaint.complaint_id (upsertList_mem c l)

lemma foldl_upsert_preserves_key (k : Nat) : ∀ (l : List Complaint) (s : Store),
    k ∈ s.syncedComplaints.map Complaint.complaint_id →
    k ∈ ((l.foldl (fun acc c => saveSyncedComplaint false c acc) s).syncedComplaints.map
      Complaint.complaint_id) := by
  intro l
  induction l with
  | nil => intro s h; exact h
  | cons c cs ih =>
    intro s h
    show k ∈ ((cs.foldl _ (saveSyncedComplaint false c s)).syncedComplaints.map _)
    apply ih
    rw [saveSyncedComplaint_eq]
    exact upsertList_key_mem c k s.syncedComplaints h

lemma foldl_upsert_mem_key : ∀ (l : List Complaint) (s : Store), ∀ c ∈ l,
    c.complaint_id ∈
      ((l.foldl (fun acc c => saveSyncedComplaint false c acc) s).syncedComplaints.map
        Complaint.complaint_id) := by
  intro l
  induction l with
  | nil => intro s c hc; simp at hc
  | cons x xs ih =>
    intro s c hc
    rcases List.mem_cons.mp hc with h | h
    · subst h
      show c.complaint_id ∈ ((xs.foldl _ (saveSyncedComplaint false c s)).syncedComplaints.map _)
      apply foldl_upsert_preserves_key
      rw [saveSyncedComplaint_eq]
      exact upsertList_new_key c s.syncedComplaints
    · exact ih (saveSyncedComplaint false x s) c h

/-! ## Claim theorems -/

/-- C2: with the service idle, if connectivity is not classified WiFi,
`syncPhotos` returns the failure result with message "WiFi connection
required for syncing" and the whole service state — pending list, every
`synced` flag, sync cursor — is unchanged; no cleanup runs and no progress
event is emitted. -/
theorem no_wifi_abort_zero_mutation
    (ns : NetworkState) (probeFault : Bool) (upload markFault : Nat → Bool)
    (now : Int) (st : SyncState) (hidle : st.isSyncing = false)
    (hnowifi : isConnectedToWiFi probeFault ns = false) :
    syncPhotos ns probeFault upload markFault now st =
      ({ success := false, message := "WiFi connection required for syncing",
         count := none, successCount := none, failCount := none }, st, []) := by
  cases st with
  | mk flag store =>
    have hflag : flag = false := hidle
    subst hflag
    unfold syncPhotos
    split
    · next hbusy => exact Bool.noConfusion hbusy
    · split
      · rfl
      · next hw =>
        rw [hnowifi] at hw
        simp at hw

/-- C2 witness: on cellular connectivity with one pending photo, the pass
aborts with the WiFi message and no mutation. -/
theorem no_wifi_abort_zero_mutation_witness :
    syncPhotos ⟨true, .cellular, true⟩ false (fun _ => true) (fun _ => false) 5
        ⟨false, ⟨[⟨1, 2, 0, false, none⟩], [], none⟩⟩ =
      ({ success := false, message := "WiFi connection required for syncing",
         count := none, successCount := none, failCount := none },
       ⟨false, ⟨[⟨1, 2, 0, false, none⟩], [], none⟩⟩, []) :=
  no_wifi_abort_zero_mutation ⟨true, .cellular, true⟩ false (fun _ => true)
    (fun _ => false) 5 ⟨false, ⟨[⟨1, 2, 0, false, none⟩], [], none⟩⟩ rfl rfl

/-- C3: while a pass is running (`isSyncing = true`), a second invocation of
`syncPhotos` is rejected immediately with the "Sync already in progress"
failure, the service state (flag and store) is returned untouched, and no
progress event is emitted. -/
theorem reentrant_sync_rejected_without_side_effects
    (ns : NetworkState) (probeFault : Bool) (upload markFault : Nat → Bool)
    (now : Int) (st : SyncState) (hbusy : st.isSyncing = true) :
    syncPhotos ns probeFault upload markFault now st =
      ({ success := false, message := "Sync already in progress",
         count := none, successCount := none, failCount := none }, st, []) := by
  unfold syncPhotos
  rw [if_pos hbusy]

/-- C3 witness: a concrete busy state with WiFi available and photos
pending is still rejected unchanged. -/
theorem reentrant_sync_rejected_without_side_effects_witness :
    syncPhotos ⟨true, .wifi, true⟩ false (fun _ => true) (fun _ => false) 5
        ⟨true, ⟨[⟨1, 2, 0, false, none⟩], [], none⟩⟩ =
      ({ success := false, message := "Sync already in progress",
         count := none, successCount := none, failCount := none },
       ⟨true, ⟨[⟨1, 2, 0, false, none⟩], [], none⟩⟩, []) :=
  reentrant_sync_rejected_without_side_effects ⟨true, .wifi, true⟩ false
    (fun _ => true) (fun _ => false) 5 ⟨true, ⟨[⟨1, 2, 0, false, none⟩], [], none⟩⟩ rfl

/-- C10: an invocation that finds the service idle always leaves
`isSyncing = false` on return (the `finally` covers the precondition
failure, the empty-queue early return, and the loop path), and hence any
terminated sequence of passes started from an idle service ends idle —
the service can never be left permanently rejecting new passes. -/
theorem sync_flag_reset_on_every_exit
    (ns : NetworkState) (probeFault : Bool) (upload markFault : Nat → Bool)
    (now : Int) (st : SyncState) (hidle : st.isSyncing = false) :
    (syncPhotos ns probeFault upload markFault now st).2.1.isSyncing = false ∧
    ∀ calls : List PassArgs, (runPasses calls st).isSyncing = false :=
  ⟨syncPhotos_clears_flag ns probeFault upload markFault now st hidle,
   fun calls => runPasses_clears_flag calls st hidle⟩

/-- C10 witness: one no-WiFi pass and a two-pass sequence, both ending with
the flag cleared. -/
theorem sync_flag_reset_on_every_exit_witness :
    (syncPhotos ⟨true, .cellular, true⟩ false (fun _ => true) (fun _ => false) 0
        ⟨false, ⟨[⟨1, 2, 0, false, none⟩], [], none⟩⟩).2.1.isSyncing = false ∧
    (runPasses
        [⟨⟨true, .wifi, true⟩, false, fun _ => true, fun _ => false, 0⟩,
         ⟨⟨false, .offline, false⟩, false, fun _ => false, fun _ => false, 1⟩]
        ⟨false, ⟨[⟨1, 2, 0, false, none⟩], [], none⟩⟩).isSyncing = false := by
  have h := sync_flag_reset_on_every_exit ⟨true, .cellular, true⟩ false
    (fun _ => true) (fun _ => false) 0
    ⟨false, ⟨[⟨1, 2, 0, false, none⟩], [], none⟩⟩ rfl
  exact ⟨h.1, h.2 _⟩

/-- C7 counterexample: the claim says every store operation degrades a
storage fault to an empty result or a no-op and never raises; but
`saveOfflinePhoto` and `markPhotoAsSynced` catch and re-throw, so a fault
surfaces as an error to the caller. -/
theorem storage_fault_raises_in_save_and_mark :
    saveOfflinePhoto true 0 1 2 ⟨[], [], none⟩ = .error () ∧
    markPhotoAsSynced true 0 1 ⟨[], [], none⟩ = .error () :=
  ⟨rfl, rfl⟩

/-- C7 amended: the read, prune, snapshot-upsert and cursor operations
degrade a storage fault to an empty result or a no-op, while
`saveOfflinePhoto` and `markPhotoAsSynced` re-raise it to the caller. -/
theorem storage_fault_degradation_amended (s : Store) (now : Int)
    (c : Complaint) (newId cId photoId key : Nat) :
    getOfflinePhotos true s = [] ∧
    getUnsyncedPhotos true s = [] ∧
    getOfflinePhotosByComplaint true cId s = [] ∧
    getSyncedComplaints true s = [] ∧
    getComplaintByIdLocal true key s = none ∧
    getLastSync true s = none ∧
    cleanupSyncedPhotos true now s = s ∧
    saveSyncedComplaint true c s = s ∧
    updateLastSync true now s = s ∧
    saveOfflinePhoto true now newId cId s = .error () ∧
    markPhotoAsSynced true now photoId s = .error () :=
  ⟨rfl, rfl, rfl, rfl, rfl, rfl, rfl, rfl, rfl, rfl, rfl⟩

/-- C5 counterexample: an artifact whose `syncedAt` is exactly 7 days before
the current time is not "more than 7 days" old, yet the strict `>`
comparison in `cleanupSyncedPhotos` removes it. -/
theorem cleanup_removes_boundary_artifact :
    ¬ ((8 : Int) * dayMs - 1 * dayMs > 7 * dayMs) ∧
    (cleanupSyncedPhotos false (8 * dayMs)
        ⟨[⟨1, 1, 0, true, some (1 * dayMs)⟩], [], none⟩).offlinePhotos = [] := by
  constructor
  · decide
  · decide

/-- C5 amended: cleanup removes exactly the synced artifacts whose
`syncedAt` is 7 or more days before the current time (boundary inclusive;
a synced artifact missing `syncedAt` is also removed); it never removes an
unsynced artifact and keeps every synced artifact strictly younger than
7 days. -/
theorem cleanup_retention_exact (now : Int) (s : Store) :
    (∀ p ∈ s.offlinePhotos, p.synced = false →
        p ∈ (cleanupSyncedPhotos false now s).offlinePhotos) ∧
    (∀ p ∈ s.offlinePhotos, p.synced = true → ∀ t, p.syncedAt = some t →
        (p ∈ (cleanupSyncedPhotos false now s).offlinePhotos ↔ now - t < 7 * dayMs)) ∧
    (∀ p ∈ s.offlinePhotos, p.synced = true → p.syncedAt = none →
        p ∉ (cleanupSyncedPhotos false now s).offlinePhotos) ∧
    (∀ p ∈ (cleanupSyncedPhotos false now s).offlinePhotos, p ∈ s.offlinePhotos) := by
  have hphotos : (cleanupSyncedPhotos false now s).offlinePhotos =
      s.offlinePhotos.filter (keepPhoto now) := rfl
  refine ⟨?_, ?_, ?_, ?_⟩
  · intro p hp hsync
    rw [hphotos]
    exact List.mem_filter.mpr ⟨hp, keepPhoto_unsynced now p hsync⟩
  · intro p hp hsync t ht
    rw [hphotos, List.mem_filter]
    have hkeep : keepPhoto now p = decide (t > now - 7 * dayMs) := by
      simp [keepPhoto, hsync, ht]
    constructor
    · intro hmem
      have := hmem.2
      rw [hkeep, decide_eq_true_eq] at this
      omega
    · intro hlt
      refine ⟨hp, ?_⟩
      rw [hkeep, decide_eq_true_eq]
      omega
  · intro p hp hsync ht hmem
    rw [hphotos] at hmem
    have := (List.mem_filter.mp hmem).2
    simp [keepPhoto, hsync, ht] at this
  · intro p hp
    rw [hphotos] at hp
    exact (List.mem_filter.mp hp).1

/-- C5 witness: the spec scenario — one artifact synced 8 days ago, one
synced 1 day ago, one still pending — at `now = 10*dayMs`: only the
8-day-old one is gone. -/
theorem cleanup_retention_exact_witness :
    ((⟨1, 1, 0, true, some (2 * dayMs)⟩ : Photo) ∉
      (cleanupSyncedPhotos false (10 * dayMs)
        ⟨[⟨1, 1, 0, true, some (2 * dayMs)⟩, ⟨2, 1, 0, true, some (9 * dayMs)⟩,
          ⟨3, 1, 0, false, none⟩], [], none⟩).offlinePhotos) ∧
    ((⟨2, 1, 0, true, some (9 * dayMs)⟩ : Photo) ∈
      (cleanupSyncedPhotos false (10 * dayMs)
        ⟨[⟨1, 1, 0, true, some (2 * dayMs)⟩, ⟨2, 1, 0, true, some (9 * dayMs)⟩,
          ⟨3, 1, 0, false, none⟩], [], none⟩).offlinePhotos) ∧
    ((⟨3, 1, 0, false, none⟩ : Photo) ∈
      (cleanupSyncedPhotos false (10 * dayMs)
        ⟨[⟨1, 1, 0, true, some (2 * dayMs)⟩, ⟨2, 1, 0, true, some (9 * dayMs)⟩,
          ⟨3, 1, 0, false, none⟩], [], none⟩).offlinePhotos) := by
  have h := cleanup_retention_exact (10 * dayMs)
    ⟨[⟨1, 1, 0, true, some (2 * dayMs)⟩, ⟨2, 1, 0, true, some (9 * dayMs)⟩,
      ⟨3, 1, 0, false, none⟩], [], none⟩
  refine ⟨?_, ?_, ?_⟩
  · intro hmem
    have := (h.2.1 _ (by decide) rfl (2 * dayMs) rfl).mp hmem
    revert this
    decide
  · exact (h.2.1 _ (by decide) rfl (9 * dayMs) rfl).mpr (by decide)
  · exact h.1 _ (by decide) rfl

/-- C6: the read-through fetch for a single complaint: remote success
upserts the snapshot and returns the remote payload not flagged stale;
remote failure returns the stored snapshot flagged stale when present, and
otherwise a not-found failure (never a stale payload). -/
theorem read_through_fetch_contract (key : Nat) (s : Store) :
    (∀ c : Complaint,
      (getComplaintById (some c) key s).1.success = true ∧
      (getComplaintById (some c) key s).1.data = some c ∧
      (getComplaintById (some c) key s).1.offline = false ∧
      c ∈ (getComplaintById (some c) key s).2.syncedComplaints) ∧
    (∀ c : Complaint, getComplaintByIdLocal false key s = some c →
      (getComplaintById none key s).1 =
        { success := true, data := some c, error := none, offline := true } ∧
      (getComplaintById none key s).2 = s) ∧
    (getComplaintByIdLocal false key s = none →
      (getComplaintById none key s).1 =
        { success := false, data := none, error := some "Complaint not found",
          offline := true } ∧
      (getComplaintById none key s).2 = s) := by
  refine ⟨?_, ?_, ?_⟩
  · intro c
    refine ⟨rfl, rfl, rfl, ?_⟩
    show c ∈ (saveSyncedComplaint false c s).syncedComplaints
    rw [saveSyncedComplaint_eq]
    exact upsertList_mem c s.syncedComplaints
  · intro c hc
    unfold getComplaintById
    rw [hc]
    exact ⟨rfl, rfl⟩
  · intro hc
    unfold getComplaintById
    rw [hc]
    exact ⟨rfl, rfl⟩

/-- C6 witness: cached key 7 served stale on remote failure; uncached key 9
yields the not-found failure; a successful remote fetch lands in the
snapshot store. -/
theorem read_through_fetch_contract_witness :
    ((getComplaintById (some ⟨7, 42⟩) 7 ⟨[], [], none⟩).1.offline = false ∧
      (⟨7, 42⟩ : Complaint) ∈
        (getComplaintById (some ⟨7, 42⟩) 7 ⟨[], [], none⟩).2.syncedComplaints) ∧
    ((getComplaintById none 7 ⟨[], [⟨7, 42⟩], none⟩).1 =
      { success := true, data := some ⟨7, 42⟩, error := none, offline := true }) ∧
    ((getComplaintById none 9 ⟨[], [⟨7, 42⟩], none⟩).1 =
      { success := false, data := none, error := some "Complaint not found",
        offline := true }) := by
  refine ⟨?_, ?_, ?_⟩
  · have h := (read_through_fetch_contract 7 ⟨[], [], none⟩).1 ⟨7, 42⟩
    exact ⟨h.2.2.1, h.2.2.2⟩
  · exact ((read_through_fetch_contract 7 ⟨[], [⟨7, 42⟩], none⟩).2.1 ⟨7, 42⟩ rfl).1
  · exact ((read_through_fetch_contract 9 ⟨[], [⟨7, 42⟩], none⟩).2.2 rfl).1

/-- C8 counterexample: the claim says the cache wraps all three endpoints
identically, but `searchComplaints` neither upserts on remote success (the
store stays empty) nor falls back on remote failure (it fails even though
`getAllComplaints` falls back on the very same store). -/
theorem search_endpoint_not_cached :
    ((searchComplaints (some [⟨7, 42⟩]) 3 ⟨[], [], none⟩).2.syncedComplaints = []) ∧
    ((searchComplaints none 3 ⟨[], [⟨7, 42⟩], none⟩).1 =
      { success := false, results := none, error := some "Search failed",
        offline := false }) ∧
    ((getAllComplaints none ⟨[], [⟨7, 42⟩], none⟩).1 =
      { success := true, results := some [⟨7, 42⟩], error := none,
        offline := true }) :=
  ⟨rfl, rfl, rfl⟩

/-- C8 amended: the read-through cache wraps single lookup and bulk listing
— bulk success upserts each element individually (its key lands in the
snapshot store) and bulk failure falls back to the stored snapshots when
any exist — while free-text search is not cached: it never touches the
store and returns a plain failure on remote failure. -/
theorem cache_endpoints_amended (key q : Nat) (s : Store) :
    (∀ c : Complaint,
      (getComplaintById (some c) key s).1.offline = false ∧
      c ∈ (getComplaintById (some c) key s).2.syncedComplaints) ∧
    (∀ c : Complaint, getComplaintByIdLocal false key s = some c →
      (getComplaintById none key s).1.data = some c ∧
      (getComplaintById none key s).1.offline = true) ∧
    (∀ l : List Complaint,
      (getAllComplaints (some l) s).1 =
        { success := true, results := some l, error := none, offline := false } ∧
      ∀ c ∈ l, c.complaint_id ∈
        ((getAllComplaints (some l) s).2.syncedComplaints.map Complaint.complaint_id)) ∧
    (s.syncedComplaints ≠ [] →
      (getAllComplaints none s).1 =
        { success := true, results := some s.syncedComplaints, error := none,
          offline := true } ∧
      (getAllComplaints none s).2 = s) ∧
    (∀ l : List Complaint,
      searchComplaints (some l) q s =
        ({ success := true, results := some l, error := none, offline := false }, s)) ∧
    (searchComplaints none q s =
      ({ success := false, results := none, error := some "Search failed",
         offline := false }, s)) := by
  refine ⟨?_, ?_, ?_, ?_, fun l => rfl, rfl⟩
  · intro c
    refine ⟨rfl, ?_⟩
    show c ∈ (saveSyncedComplaint false c s).syncedComplaints
    rw [saveSyncedComplaint_eq]
    exact upsertList_mem c s.syncedComplaints
  · intro c hc
    unfold getComplaintById
    rw [hc]
    exact ⟨rfl, rfl⟩
  · intro l
    constructor
    · rfl
    · intro c hc
      exact foldl_upsert_mem_key l s c hc
  · intro hne
    unfold getAllComplaints
    have hlen : 0 < (getSyncedComplaints false s).length := by
      cases h : s.syncedComplaints with
      | nil => exact absurd h hne
      | cons a l =>
        show 0 < (s.syncedComplaints).length
        rw [h]
        exact Nat.succ_pos _
    rw [if_pos hlen]
    exact ⟨rfl, rfl⟩

/-- C8 witness: concrete runs of all three endpoints — a bulk success
upserting two complaints, a bulk failure falling back to a non-empty cache,
and both search branches leaving the store alone. -/
theorem cache_endpoints_amended_witness :
    ((getAllComplaints (some [⟨1, 10⟩, ⟨2, 20⟩]) ⟨[], [], none⟩).1.success = true ∧
      (1 : Nat) ∈ ((getAllComplaints (some [⟨1, 10⟩, ⟨2, 20⟩])
        ⟨[], [], none⟩).2.syncedComplaints.map Complaint.complaint_id) ∧
      (2 : Nat) ∈ ((getAllComplaints (some [⟨1, 10⟩, ⟨2, 20⟩])
        ⟨[], [], none⟩).2.syncedComplaints.map Complaint.complaint_id)) ∧
    ((getAllComplaints none ⟨[], [⟨7, 42⟩], none⟩).1 =
      { success := true, results := some [⟨7, 42⟩], error := none, offline := true }) ∧
    (searchComplaints none 3 ⟨[], [⟨7, 42⟩], none⟩ =
      ({ success := false, results := none, error := some "Search failed",
         offline := false }, ⟨[], [⟨7, 42⟩], none⟩)) := by
  have h := cache_endpoints_amended 0 3 (⟨[], [], none⟩ : Store)
  have h2 := cache_endpoints_amended 0 3 (⟨[], [⟨7, 42⟩], none⟩ : Store)
  refine ⟨⟨?_, ?_, ?_⟩, ?_, ?_⟩
  · have := (h.2.2.1 [⟨1, 10⟩, ⟨2, 20⟩]).1
    rw [this]
  · exact (h.2.2.1 [⟨1, 10⟩, ⟨2, 20⟩]).2 ⟨1, 10⟩ (by decide)
  · exact (h.2.2.1 [⟨1, 10⟩, ⟨2, 20⟩]).2 ⟨2, 20⟩ (by decide)
  · exact (h2.2.2.2.1 (by decide)).1
  · exact h2.2.2.2.2.2

/-- C4 counterexample: with WiFi present but zero pending artifacts,
`syncPhotos` returns early: the cursor stays `none`, the prunable 10-day-old
synced artifact is still there (cleanup did not run, although running it
would have removed the photo), and the result carries no
`successCount`/`failCount`. -/
theorem empty_pass_skips_cursor_and_cleanup :
    (getUnsyncedPhotos false ⟨[⟨3, 11, 0, true, some 0⟩], [], none⟩ = []) ∧
    (syncPhotos ⟨true, .wifi, true⟩ false (fun _ => true) (fun _ => false)
        (10 * dayMs) ⟨false, ⟨[⟨3, 11, 0, true, some 0⟩], [], none⟩⟩ =
      ({ success := true, message := "No photos to sync", count := some 0,
         successCount := none, failCount := none },
       ⟨false, ⟨[⟨3, 11, 0, true, some 0⟩], [], none⟩⟩, [])) ∧
    ((cleanupSyncedPhotos false (10 * dayMs)
        ⟨[⟨3, 11, 0, true, some 0⟩], [], none⟩).offlinePhotos = []) := by
  refine ⟨rfl, ?_, by decide⟩
  decide

/-- C4 amended: after a WiFi pass over a non-empty pending snapshot the
cursor is set to the pass time and `cleanupSyncedPhotos` runs on the
post-loop store, regardless of per-item outcomes, and the result carries
`successCount` and `failCount`; a pass with zero pending artifacts instead
returns early with `count = 0` and touches neither cursor nor store. -/
theorem nonempty_pass_updates_cursor_and_prunes
    (ns : NetworkState) (probeFault : Bool) (upload markFault : Nat → Bool)
    (now : Int) (st : SyncState) (hidle : st.isSyncing = false)
    (hwifi : isConnectedToWiFi probeFault ns = true) :
    (getUnsyncedPhotos false st.store ≠ [] →
      (syncPhotos ns probeFault upload markFault now st).2.1.store =
        cleanupSyncedPhotos false now (updateLastSync false now
          (syncLoop upload markFault now (getUnsyncedPhotos false st.store).length
            (getUnsyncedPhotos false st.store) 0 st.store).store) ∧
      (syncPhotos ns probeFault upload markFault now st).2.1.store.lastSync = some now ∧
      (syncPhotos ns probeFault upload markFault now st).1.successCount.isSome = true ∧
      (syncPhotos ns probeFault upload markFault now st).1.failCount.isSome = true) ∧
    (getUnsyncedPhotos false st.store = [] →
      (syncPhotos ns probeFault upload markFault now st).2.1.store = st.store ∧
      (syncPhotos ns probeFault upload markFault now st).1.count = some 0 ∧
      (syncPhotos ns probeFault upload markFault now st).1.successCount = none) := by
  constructor
  · intro hne
    rw [syncPhotos_run ns probeFault upload markFault now st hidle hwifi hne]
    exact ⟨rfl, rfl, rfl, rfl⟩
  · intro hemp
    cases st with
    | mk flag store =>
      have hflag : flag = false := hidle
      subst hflag
      unfold syncPhotos
      split
      · next hbusy => exact Bool.noConfusion hbusy
      · split
        · next hw =>
          rw [hwifi] at hw
          simp at hw
        · dsimp only
          split
          · exact ⟨rfl, rfl, rfl⟩
          · next h0 =>
            exact absurd (congrArg List.length hemp) h0

/-- C4 amended witness: a two-photo pending store where one upload fails —
cursor updated, cleanup run, counts present — and an empty pending store —
early return with `count = 0`. -/
theorem nonempty_pass_updates_cursor_and_prunes_witness :
    ((syncPhotos ⟨true, .wifi, true⟩ false (fun j => j == 0) (fun _ => false) 5
        ⟨false, ⟨[⟨1, 2, 0, false, none⟩, ⟨2, 2, 0, false, none⟩], [], none⟩⟩).2.1.store.lastSync
      = some 5) ∧
    ((syncPhotos ⟨true, .wifi, true⟩ false (fun j => j == 0) (fun _ => false) 5
        ⟨false, ⟨[⟨1, 2, 0, false, none⟩, ⟨2, 2, 0, false, none⟩], [], none⟩⟩).1.successCount.isSome
      = true) ∧
    ((syncPhotos ⟨true, .wifi, true⟩ false (fun _ => true) (fun _ => false) 5
        ⟨false, ⟨[], [], none⟩⟩).1.count = some 0) := by
  have h1 := nonempty_pass_updates_cursor_and_prunes ⟨true, .wifi, true⟩ false
    (fun j => j == 0) (fun _ => false) 5
    ⟨false, ⟨[⟨1, 2, 0, false, none⟩, ⟨2, 2, 0, false, none⟩], [], none⟩⟩ rfl rfl
  have h2 := nonempty_pass_updates_cursor_and_prunes ⟨true, .wifi, true⟩ false
    (fun _ => true) (fun _ => false) 5 ⟨false, ⟨[], [], none⟩⟩ rfl rfl
  exact ⟨(h1.1 (by decide)).2.1, (h1.1 (by decide)).2.2.1, (h2.2 rfl).2.1⟩

/-- C9: a WiFi pass over `n` pending artifacts emits exactly one progress
event per item, in loop order: the `j`-th event (0-based) carries
`current = j + 1`, `total = n` and the `j`-th artifact of the snapshot. -/
theorem progress_events_once_per_item
    (ns : NetworkState) (probeFault : Bool) (upload markFault : Nat → Bool)
    (now : Int) (st : SyncState) (hidle : st.isSyncing = false)
    (hwifi : isConnectedToWiFi probeFault ns = true) :
    (syncPhotos ns probeFault upload markFault now st).2.2.length =
      (getUnsyncedPhotos false st.store).length ∧
    ∀ j (h : j < (getUnsyncedPhotos false st.store).length)
      (h' : j < (syncPhotos ns probeFault upload markFault now st).2.2.length),
      (syncPhotos ns probeFault upload markFault now st).2.2.get ⟨j, h'⟩ =
        { current := j + 1, total := (getUnsyncedPhotos false st.store).length,
          photoId := ((getUnsyncedPhotos false st.store).get ⟨j, h⟩).id } := by
  by_cases hemp : getUnsyncedPhotos false st.store = []
  · rw [syncPhotos_empty ns probeFault upload markFault now st hidle hwifi hemp]
    constructor
    · rw [hemp]
      rfl
    · intro j h h'
      rw [hemp] at h
      exact absurd h (Nat.not_lt_zero j)
  · rw [syncPhotos_run ns probeFault upload markFault now st hidle hwifi hemp]
    dsimp only
    rw [syncLoop_events]
    constructor
    · exact eventsOf_length _ _ 0
    · intro j h h'
      rw [eventsOf_get _ _ 0 j h h']
      congr 1
      omega

/-- C9 witness: three pending photos, middle upload failing — three events,
in order, with `current = 1, 2, 3` and `total = 3`. -/
theorem progress_events_once_per_item_witness :
    ((syncPhotos ⟨true, .wifi, true⟩ false (fun j => !(j == 1)) (fun _ => false) 5
        ⟨false, ⟨[⟨1, 2, 0, false, none⟩, ⟨2, 2, 0, false, none⟩,
                  ⟨3, 2, 0, false, none⟩], [], none⟩⟩).2.2.length = 3) ∧
    ((syncPhotos ⟨true, .wifi, true⟩ false (fun j => !(j == 1)) (fun _ => false) 5
        ⟨false, ⟨[⟨1, 2, 0, false, none⟩, ⟨2, 2, 0, false, none⟩,
                  ⟨3, 2, 0, false, none⟩], [], none⟩⟩).2.2.get
        ⟨1, by decide⟩ = { current := 2, total := 3, photoId := 2 }) := by
  have h := progress_events_once_per_item ⟨true, .wifi, true⟩ false
    (fun j => !(j == 1)) (fun _ => false) 5
    ⟨false, ⟨[⟨1, 2, 0, false, none⟩, ⟨2, 2, 0, false, none⟩,
              ⟨3, 2, 0, false, none⟩], [], none⟩⟩ rfl rfl
  exact ⟨h.1, h.2 1 (by decide) (by decide)⟩

/-- C1: after a WiFi pass over a non-empty pending snapshot with pairwise
distinct photo ids, every artifact of the snapshot is accounted for: the
result's `successCount` counts exactly the loop positions whose item
succeeded and `failCount` the rest, the two sum to the snapshot length, a
succeeding artifact ends `synced = true` in the store, and a failing one is
still present in the pending list with `synced = false` — never deleted. -/
theorem sync_pass_accounts_every_artifact
    (ns : NetworkState) (probeFault : Bool) (upload markFault : Nat → Bool)
    (now : Int) (st : SyncState)
    (hidle : st.isSyncing = false)
    (hwifi : isConnectedToWiFi probeFault ns = true)
    (hids : (st.store.offlinePhotos.map Photo.id).Nodup)
    (hne : getUnsyncedPhotos false st.store ≠ []) :
    (syncPhotos ns probeFault upload markFault now st).1.successCount =
      some ((List.range (getUnsyncedPhotos false st.store).length).countP
        (okAt upload markFault)) ∧
    (syncPhotos ns probeFault upload markFault now st).1.failCount =
      some ((List.range (getUnsyncedPhotos false st.store).length).countP
        (fun j => !okAt upload markFault j)) ∧
    (List.range (getUnsyncedPhotos false st.store).length).countP
        (okAt upload markFault) +
      (List.range (getUnsyncedPhotos false st.store).length).countP
        (fun j => !okAt upload markFault j) =
      (getUnsyncedPhotos false st.store).length ∧
    ∀ j (h : j < (getUnsyncedPhotos false st.store).length),
      (okAt upload markFault j = true →
        ∃ q ∈ (syncPhotos ns probeFault upload markFault now st).2.1.store.offlinePhotos,
          q.id = ((getUnsyncedPhotos false st.store).get ⟨j, h⟩).id ∧
          q.synced = true) ∧
      (okAt upload markFault j = false →
        (getUnsyncedPhotos false st.store).get ⟨j, h⟩ ∈
          getUnsyncedPhotos false
            (syncPhotos ns probeFault upload markFault now st).2.1.store) := by
  have hsub : ∀ p ∈ getUnsyncedPhotos false st.store, p ∈ st.store.offlinePhotos := by
    intro p hp
    exact List.mem_of_mem_filter hp
  have hnd : ((getUnsyncedPhotos false st.store).map Photo.id).Nodup := by
    refine List.Nodup.sublist ?_ hids
    exact List.Sublist.map Photo.id (List.filter_sublist _)
  rw [syncPhotos_run ns probeFault upload markFault now st hidle hwifi hne]
  dsimp only
  refine ⟨?_, ?_, ?_, ?_⟩
  · rw [(syncLoop_counts upload markFault now _ _ 0 st.store).1, List.range_eq_range']
  · rw [(syncLoop_counts upload markFault now _ _ 0 st.store).2, List.range_eq_range']
  · rw [countP_add_countP_not, List.length_range]
  · intro j h
    have hitem := syncLoop_item upload markFault now
      (getUnsyncedPhotos false st.store).length (getUnsyncedPhotos false st.store)
      0 st.store hnd hsub j h
    rw [Nat.zero_add] at hitem
    have hstores : (cleanupSyncedPhotos false now (updateLastSync false now
        (syncLoop upload markFault now (getUnsyncedPhotos false st.store).length
          (getUnsyncedPhotos false st.store) 0 st.store).store)).offlinePhotos =
        ((syncLoop upload markFault now (getUnsyncedPhotos false st.store).length
          (getUnsyncedPhotos false st.store) 0 st.store).store).offlinePhotos.filter
          (keepPhoto now) := rfl
    constructor
    · intro hok
      obtain ⟨q, hqmem, hqid, hqs, hqa⟩ := hitem.1 hok
      refine ⟨q, ?_, hqid, hqs⟩
      rw [hstores]
      exact List.mem_filter.mpr ⟨hqmem, keepPhoto_fresh now q hqs hqa⟩
    · intro hok
      have hpmem := hitem.2 hok
      have hpending : (getUnsyncedPhotos false st.store).get ⟨j, h⟩ ∈
          getUnsyncedPhotos false st.store := List.get_mem _ j h
      have hpsync : ((getUnsyncedPhotos false st.store).get ⟨j, h⟩).synced = false := by
        simpa using (List.mem_filter.mp hpending).2
      have hgoal : getUnsyncedPhotos false (cleanupSyncedPhotos false now
          (updateLastSync false now
            (syncLoop upload markFault now (getUnsyncedPhotos false st.store).length
              (getUnsyncedPhotos false st.store) 0 st.store).store)) =
          (((syncLoop upload markFault now (getUnsyncedPhotos false st.store).length
            (getUnsyncedPhotos false st.store) 0 st.store).store).offlinePhotos.filter
              (keepPhoto now)).filter (fun p => !p.synced) := rfl
      rw [hgoal]
      refine List.mem_filter.mpr ⟨?_, ?_⟩
      · exact List.mem_filter.mpr ⟨hpmem, keepPhoto_unsynced now _ hpsync⟩
      · rw [hpsync]
        rfl

/-- C1 witness: two pending photos with distinct ids, the second upload
failing — `successCount = 1`, `failCount = 1`, the first photo marked
synced, the second still pending. -/
theorem sync_pass_accounts_every_artifact_witness :
    ((syncPhotos ⟨true, .wifi, true⟩ false (fun j => j == 0) (fun _ => false) 5
        ⟨false, ⟨[⟨1, 2, 0, false, none⟩, ⟨2, 2, 0, false, none⟩], [], none⟩⟩).1.successCount
      = some 1) ∧
    ((syncPhotos ⟨true, .wifi, true⟩ false (fun j => j == 0) (fun _ => false) 5
        ⟨false, ⟨[⟨1, 2, 0, false, none⟩, ⟨2, 2, 0, false, none⟩], [], none⟩⟩).1.failCount
      = some 1) ∧
    (∃ q ∈ (syncPhotos ⟨true, .wifi, true⟩ false (fun j => j == 0) (fun _ => false) 5
        ⟨false, ⟨[⟨1, 2, 0, false, none⟩, ⟨2, 2, 0, false, none⟩], [], none⟩⟩).2.1.store.offlinePhotos,
        q.id = 1 ∧ q.synced = true) ∧
    ((⟨2, 2, 0, false, none⟩ : Photo) ∈ getUnsyncedPhotos false
      (syncPhotos ⟨true, .wifi, true⟩ false (fun j => j == 0) (fun _ => false) 5
        ⟨false, ⟨[⟨1, 2, 0, false, none⟩, ⟨2, 2, 0, false, none⟩], [], none⟩⟩).2.1.store) := by
  have h := sync_pass_accounts_every_artifact ⟨true, .wifi, true⟩ false
    (fun j => j == 0) (fun _ => false) 5
    ⟨false, ⟨[⟨1, 2, 0, false, none⟩, ⟨2, 2, 0, false, none⟩], [], none⟩⟩
    rfl rfl (by decide) (by decide)
  refine ⟨?_, ?_, ?_, ?_⟩
  · rw [h.1]
    decide
  · rw [h.2.1]
    decide
  · obtain ⟨q, hq, hid, hs⟩ := (h.2.2.2 0 (by decide)).1 rfl
    exact ⟨q, hq, hid, hs⟩
  · exact (h.2.2.2 1 (by decide)).2 rfl

end Setu
